import Mathlib

/-!
Shallow embedding of the drone-operation project (coordinator B, dynamics D,
watchdog W and the shared potential-field / virtual-key helpers).

C `double` values are modelled as exact rationals (`ℚ`); the one genuinely
irrational operation of the source, the call to `sqrt` inside the obstacle
repulsion loop of `compute_repulsive_P` (util.c), is modelled by an explicit
square-root oracle parameter `sq : ℚ → ℚ` that is threaded to every function
that transitively calls it, so every theorem below quantifies over it and no
result depends on the value of the square root.  C `int` is modelled as `ℤ`
(no overflow occurs in the quantities the claims are about).
-/

attribute [local semireducible] Rat.add Rat.mul Rat.sub Rat.inv Rat.ofScientific

/-- SimParams from headers/params.h: simulation parameters, immutable after
startup. -/
structure SimParams where
  mass : ℚ
  visc : ℚ
  dt : ℚ
  force_step : ℚ
  world_half : ℚ
  wall_clearance : ℚ
  wall_gain : ℚ

/-- init_default_params from params.c lines 41-51: mass=1, visc=1, dt=0.05,
force_step=5, world_half=50, wall_clearance=5, wall_gain=0.1. -/
def init_default_params : SimParams :=
  { mass := 1, visc := 1, dt := 1/20, force_step := 5, world_half := 50,
    wall_clearance := 5, wall_gain := 1/10 }

/-- ForceStateMsg: force command sent from B to D ({Fx, Fy, reset}). -/
structure ForceStateMsg where
  Fx : ℚ
  Fy : ℚ
  reset : Bool

/-- DroneStateMsg: drone state sent from D to B ({x, y, vx, vy}). -/
structure DroneStateMsg where
  x : ℚ
  y : ℚ
  vx : ℚ
  vy : ℚ

/-- Obstacle from headers/obstacles.h: position, active flag, remaining
lifetime in steps.  The C `int active` is only ever set to 0/1 and tested for
truth, so it is modelled as `Bool`. -/
structure Obstacle where
  x : ℚ
  y : ℚ
  active : Bool
  life_steps : ℤ

/-- NUM_OBSTACLES from headers/obstacles.h. -/
def NUM_OBSTACLES : Nat := 12

/-- Target from headers/targets.h: same shape as Obstacle. -/
structure Target where
  x : ℚ
  y : ℚ
  active : Bool
  life_steps : ℤ

/-- NUM_TARGETS from headers/targets.h. -/
def NUM_TARGETS : Nat := 12

/-- PointLike from headers/util.h: any object with x, y, active.  The C code
casts `Obstacle*` / `Target*` to `PointLike*`; both structs lay out x, y,
active at the same offsets, so the cast is modelled by field projection. -/
structure PointLike where
  x : ℚ
  y : ℚ
  active : Bool

/-- The layout-compatible view of an Obstacle as a PointLike (the C pointer
cast in server.c). -/
def Obstacle.toPointLike (o : Obstacle) : PointLike :=
  { x := o.x, y := o.y, active := o.active }

/-- The layout-compatible view of a Target as a PointLike. -/
def Target.toPointLike (t : Target) : PointLike :=
  { x := t.x, y := t.y, active := t.active }

/-- Dir8 from headers/util.h: one of the 8 key directions with its unit
vector. -/
structure Dir8 where
  key : Char
  ux : ℚ
  uy : ℚ

/-- INV_SQRT2 from util.c line 58: the exact double literal
0.7071067811865475 written in the source. -/
def INV_SQRT2 : ℚ := 7071067811865475 / 10000000000000000

/-- g_dir8 from util.c lines 62-71: the 8 direction table, in source order. -/
def g_dir8 : List Dir8 :=
  [ { key := 'w', ux := -INV_SQRT2, uy := INV_SQRT2 },
    { key := 'e', ux := 0,          uy := 1 },
    { key := 'r', ux := INV_SQRT2,  uy := INV_SQRT2 },
    { key := 's', ux := -1,         uy := 0 },
    { key := 'f', ux := 1,          uy := 0 },
    { key := 'x', ux := -INV_SQRT2, uy := -INV_SQRT2 },
    { key := 'c', ux := 0,          uy := -1 },
    { key := 'v', ux := INV_SQRT2,  uy := -INV_SQRT2 } ]

/-- dot2 from util.c lines 75-77. -/
def dot2 (ax ay ux uy : ℚ) : ℚ := ax * ux + ay * uy

/-- The loop body of best_dir8_for_vector (util.c lines 85-91): keep the
strictly larger dot product, starting from (0, -1). -/
def bestDirStep (Px Py : ℚ) (acc : ℚ × ℤ) (entry : Nat × Dir8) : ℚ × ℤ :=
  let d := dot2 Px Py entry.2.ux entry.2.uy
  if d > acc.1 then (d, (entry.1 : ℤ)) else acc

/-- best_dir8_for_vector from util.c lines 81-93: index (0-7) of the direction
with the largest strictly positive dot product with (Px,Py), -1 if all
projections are ≤ 0. -/
def best_dir8_for_vector (Px Py : ℚ) : ℤ :=
  (g_dir8.enum.foldl (bestDirStep Px Py) (0, -1)).2

/-- direction_from_key from util.c lines 34-55. -/
def direction_from_key (key : Char) : ℚ × ℚ :=
  if key = 'w' then (-1, 1)
  else if key = 'e' then (0, 1)
  else if key = 'r' then (1, 1)
  else if key = 's' then (-1, 0)
  else if key = 'd' then (0, 0)
  else if key = 'f' then (1, 0)
  else if key = 'x' then (-1, -1)
  else if key = 'c' then (0, -1)
  else if key = 'v' then (1, -1)
  else (0, 0)

/-- The wall contribution of compute_repulsive_P (util.c lines 232-278) for
one border: given the distance `d` to the wall, the magnitude
gain*(1/d - 1/clearance) with the distance floored at eps and the magnitude
clamped at 0; zero when d ≥ clearance. -/
def wall_contrib (gain clearance eps d : ℚ) : ℚ :=
  if d < clearance then
    let d := if d < eps then eps else d
    let mag := gain * (1/d - 1/clearance)
    if mag < 0 then 0 else mag
  else 0

/-- The obstacle loop body of compute_repulsive_P (util.c lines 290-314):
adds the repulsion from one obstacle to the accumulator.  `sq` is the
square-root oracle standing for the C `sqrt`. -/
def obstacle_contrib (sq : ℚ → ℚ) (sx sy eps clearance gain : ℚ)
    (acc : ℚ × ℚ) (o : Obstacle) : ℚ × ℚ :=
  if o.active then
    let dx := sx - o.x
    let dy := sy - o.y
    let rho := sq (dx * dx + dy * dy)
    let rho := if rho < eps then eps else rho
    if rho < clearance then
      let mag := gain * (1/rho - 1/clearance)
      let mag := if mag < 0 then 0 else mag
      (acc.1 + mag * (dx / rho), acc.2 + mag * (dy / rho))
    else acc
  else acc

/-- compute_repulsive_P from util.c lines 215-316: continuous repulsive force
(Px, Py) from the 4 walls (when include_walls) and the active obstacles (when
include_obstacles). -/
def compute_repulsive_P (sq : ℚ → ℚ) (s : DroneStateMsg) (p : SimParams)
    (obs : List Obstacle) (include_walls include_obstacles : Bool) : ℚ × ℚ :=
  let eps : ℚ := 1/1000
  let wallP : ℚ × ℚ :=
    if include_walls ∧ p.wall_clearance > 0 ∧ p.wall_gain > 0 then
      ( wall_contrib p.wall_gain p.wall_clearance eps (p.world_half + s.x)
          - wall_contrib p.wall_gain p.wall_clearance eps (p.world_half - s.x),
        wall_contrib p.wall_gain p.wall_clearance eps (p.world_half + s.y)
          - wall_contrib p.wall_gain p.wall_clearance eps (p.world_half - s.y) )
    else (0, 0)
  if include_obstacles ∧ 0 < obs.length then
    let obs_clearance := p.world_half * (30/100)
    let obs_gain : ℚ := 120
    if obs_clearance ≤ 0 ∨ obs_gain ≤ 0 then wallP
    else obs.foldl (obstacle_contrib sq s.x s.y eps obs_clearance obs_gain) wallP
  else wallP

/-- The C cast `(int)q` of a double: truncation toward zero. -/
def c_trunc (q : ℚ) : ℤ := if 0 ≤ q then ⌊q⌋ else ⌈q⌉

/-- The virtual-key step count of util.c lines 176-179:
`n_steps_f = best_dot / (step_force + 1e-9); n_steps = (int)(n_steps_f + 0.5)`. -/
def vk_steps (p : SimParams) (best_dot : ℚ) : ℤ :=
  c_trunc (best_dot / (p.force_step + 1/1000000000) + 1/2)

/-- Modelled from the spec's words (§4.3), for comparison with `vk_steps`:
"The magnitude is converted to an integer count of force-increment steps by
rounding `projection / force_step` to the nearest integer". -/
def spec_round_steps (p : SimParams) (projection : ℚ) : ℤ :=
  round (projection / p.force_step)

/-- The virtual-key force contributed by the obstacle repulsion field in
send_total_force_to_d (util.c lines 134-188), as a function of the current
state, parameters and obstacle set only (it does not see the user force):
zero in each of the three fallback branches (negligible repulsion, no
direction index, non-positive best projection), otherwise
`n_steps * direction_from_key(best_key) * force_step`. -/
def virtual_key_force (sq : ℚ → ℚ) (cur_state : DroneStateMsg) (p : SimParams)
    (obs : List Obstacle) : ℚ × ℚ :=
  let P := compute_repulsive_P sq cur_state p obs false true
  if P.1 * P.1 + P.2 * P.2 < 1/1000000 then (0, 0)
  else
    let idx := best_dir8_for_vector P.1 P.2
    if idx < 0 then (0, 0)
    else
      let d := g_dir8.getD idx.toNat { key := '?', ux := 0, uy := 0 }
      let best_dot := dot2 P.1 P.2 d.ux d.uy
      if best_dot ≤ 0 then (0, 0)
      else
        let n := vk_steps p best_dot
        let dF := direction_from_key d.key
        ((n : ℚ) * dF.1 * p.force_step, (n : ℚ) * dF.2 * p.force_step)

/-- send_total_force_to_d from util.c lines 97-211, as the message written to
D: recomputes the obstacle repulsion from the current state, then either
forwards the user force unchanged (negligible repulsion / no direction /
non-positive projection) or adds the virtual-key force to a copy of it.  The
C function takes the user force through a const pointer and never writes it. -/
def send_total_force_to_d (sq : ℚ → ℚ) (user_force : ForceStateMsg)
    (cur_state : DroneStateMsg) (p : SimParams) (obs : List Obstacle) :
    ForceStateMsg :=
  let P := compute_repulsive_P sq cur_state p obs false true
  if P.1 * P.1 + P.2 * P.2 < 1/1000000 then user_force
  else
    let idx := best_dir8_for_vector P.1 P.2
    if idx < 0 then user_force
    else
      let d := g_dir8.getD idx.toNat { key := '?', ux := 0, uy := 0 }
      let best_dot := dot2 P.1 P.2 d.ux d.uy
      if best_dot ≤ 0 then user_force
      else
        let n := vk_steps p best_dot
        let dF := direction_from_key d.key
        { user_force with
            Fx := user_force.Fx + (n : ℚ) * dF.1 * p.force_step,
            Fy := user_force.Fy + (n : ℚ) * dF.2 * p.force_step }

/-- One iteration of the dynamics loop in src/dynamics.c lines 60-124: drain
at most one force command (reset zeroes the state before adopting the new
force; absence of a command retains the previous force), add the wall-only
repulsion, integrate `a = (F - visc*v)/mass; v += a*dt; x += v*dt`, and emit
the new state.  Returns (emitted state, retained force). -/
def dynamics_tick (sq : ℚ → ℚ) (p : SimParams) (s : DroneStateMsg)
    (f : ForceStateMsg) (cmd : Option ForceStateMsg) :
    DroneStateMsg × ForceStateMsg :=
  let sf : DroneStateMsg × ForceStateMsg :=
    match cmd with
    | some new_f =>
        (if new_f.reset then { x := 0, y := 0, vx := 0, vy := 0 } else s,
         { new_f with reset := false })
    | none => (s, f)
  let s := sf.1
  let f := sf.2
  let Pw := compute_repulsive_P sq s p [] true false
  let Fx_total := f.Fx + Pw.1
  let Fy_total := f.Fy + Pw.2
  let ax := (Fx_total - p.visc * s.vx) / p.mass
  let ay := (Fy_total - p.visc * s.vy) / p.mass
  let vx := s.vx + ax * p.dt
  let vy := s.vy + ay * p.dt
  ({ x := s.x + vx * p.dt, y := s.y + vy * p.dt, vx := vx, vy := vy }, f)

/-- too_close_to_any_pointlike from util.c lines 401-420: true when (px,py)
is within min_dist (inclusive, squared comparison) of any active entry. -/
def too_close_to_any_pointlike (px py : ℚ) (arr : List PointLike)
    (min_dist : ℚ) : Bool :=
  arr.any fun a =>
    a.active && decide ((px - a.x) * (px - a.x) + (py - a.y) * (py - a.y)
      ≤ min_dist * min_dist)

/-- target_too_close_to_wall from util.c lines 381-396 (including the
`insp_width = 35` offset the source adds to the x-extent). -/
def target_too_close_to_wall (x y : ℚ) (p : SimParams) (wall_margin : ℚ) :
    Bool :=
  let insp_width : ℚ := 35
  let wh := p.world_half
  let mod_wh := wh - wall_margin + insp_width
  let dx_to_wall := mod_wh - |x|
  let dy_to_wall := wh - |y|
  decide (dx_to_wall < wall_margin) || decide (dy_to_wall < wall_margin)

/-- The loop of check_target_hits (util.c lines 339-359), carrying the score,
collected-count, last-hit-step and hit counters exactly as the C loop mutates
them.  Returns (targets, score, collected, last_hit, hits). -/
def check_hits_loop (px py R_hit2 : ℚ) (current_step : ℤ) :
    List Target → ℤ → ℤ → ℤ → ℤ → List Target × ℤ × ℤ × ℤ × ℤ
  | [], score, collected, last_hit, hits => ([], score, collected, last_hit, hits)
  | t :: rest, score, collected, last_hit, hits =>
    if t.active ∧ (px - t.x) * (px - t.x) + (py - t.y) * (py - t.y) ≤ R_hit2 then
      let r := check_hits_loop px py R_hit2 current_step rest
        (score + 1) (collected + 1) current_step (hits + 1)
      ({ t with active := false, life_steps := 0 } :: r.1, r.2)
    else
      let r := check_hits_loop px py R_hit2 current_step rest
        score collected last_hit hits
      (t :: r.1, r.2)

/-- check_target_hits from util.c lines 321-362: hit radius is 8% of
world_half; each active target within it is deactivated and the counters
updated. -/
def check_target_hits (cur_state : DroneStateMsg) (targets : List Target)
    (p : SimParams) (score collected last_hit : ℤ) (current_step : ℤ) :
    List Target × ℤ × ℤ × ℤ × ℤ :=
  let R_hit := p.world_half * (8/100)
  check_hits_loop cur_state.x cur_state.y (R_hit * R_hit) current_step
    targets score collected last_hit 0

/-- The per-tick obstacle aging of server.c lines 503-510: an active entry
with positive lifetime is decremented and deactivated exactly when the
counter reaches 0; every other entry is untouched. -/
def age_obstacle (o : Obstacle) : Obstacle :=
  if o.active ∧ o.life_steps > 0 then
    let l := o.life_steps - 1
    if l = 0 then { o with life_steps := l, active := false }
    else { o with life_steps := l }
  else o

/-- The per-tick target aging of server.c lines 511-518 (same shape as
`age_obstacle`). -/
def age_target (t : Target) : Target :=
  if t.active ∧ t.life_steps > 0 then
    let l := t.life_steps - 1
    if l = 0 then { t with life_steps := l, active := false }
    else { t with life_steps := l }
  else t

/-- One batch entry as carried by ObstacleSetMsg / TargetSetMsg: position and
assigned lifetime. -/
structure EntityCand where
  x : ℚ
  y : ℚ
  life_steps : ℤ

/-- ObstacleSetMsg (O→B): count plus the fixed array of candidates. -/
structure ObstacleSetMsg where
  count : ℤ
  obs : List EntityCand

/-- TargetSetMsg (T→B): same shape as the obstacle batch. -/
structure TargetSetMsg where
  count : ℤ
  tgt : List EntityCand

/-- The body of the obstacle-acceptance loop of server.c lines 574-597: the
candidate is dropped when `too_close_to_any_pointlike` holds of it **against
the obstacle array itself** (the source passes `g_obstacles`, although its
comment and log message speak of targets), otherwise it is stored at index
`accepted` (which the loop then increments).  The state is (array, accepted). -/
def obstacle_accept_step (tgt_clearance : ℚ) (st : List Obstacle × Nat)
    (c : EntityCand) : List Obstacle × Nat :=
  if too_close_to_any_pointlike c.x c.y (st.1.map Obstacle.toPointLike)
      tgt_clearance then st
  else if st.2 < NUM_OBSTACLES then
    (st.1.set st.2 { x := c.x, y := c.y, active := true, life_steps := c.life_steps },
     st.2 + 1)
  else st

/-- The slot deactivation of server.c lines 600-603. -/
def deactivate_obstacle (o : Obstacle) : Obstacle :=
  { o with active := false, life_steps := 0 }

/-- The obstacle-batch handling of server.c lines 566-608 (RUNNING case):
clamp the requested count to NUM_OBSTACLES, run the acceptance loop with
clearance `world_half * 0.15` starting from accepted = 0, then deactivate
every slot from `accepted` upward.  Returns (new array, accepted). -/
def process_obstacle_batch (p : SimParams) (arr0 : List Obstacle)
    (msg : ObstacleSetMsg) : List Obstacle × Nat :=
  let requested : ℤ :=
    if msg.count > (NUM_OBSTACLES : ℤ) then (NUM_OBSTACLES : ℤ) else msg.count
  let tgt_clearance := p.world_half * (15/100)
  let r := (msg.obs.take requested.toNat).foldl
    (obstacle_accept_step tgt_clearance) (arr0, 0)
  (r.1.take r.2 ++ (r.1.drop r.2).map deactivate_obstacle, r.2)

/-- The body of the target-acceptance loop of server.c lines 638-668: reject
when too close to a wall (margin `world_half * 0.20`), then when
`too_close_to_any_pointlike` holds **against the target array itself** (the
source passes `g_targets`, although its comment and log message speak of
obstacles), otherwise store at index `accepted`. -/
def target_accept_step (p : SimParams) (wall_margin obs_clearance : ℚ)
    (st : List Target × Nat) (c : EntityCand) : List Target × Nat :=
  if target_too_close_to_wall c.x c.y p wall_margin then st
  else if too_close_to_any_pointlike c.x c.y (st.1.map Target.toPointLike)
      obs_clearance then st
  else if st.2 < NUM_TARGETS then
    (st.1.set st.2 { x := c.x, y := c.y, active := true, life_steps := c.life_steps },
     st.2 + 1)
  else st

/-- The slot deactivation of server.c lines 672-675. -/
def deactivate_target (t : Target) : Target :=
  { t with active := false, life_steps := 0 }

/-- The target-batch handling of server.c lines 629-680 (RUNNING case). -/
def process_target_batch (p : SimParams) (arr0 : List Target)
    (msg : TargetSetMsg) : List Target × Nat :=
  let requested : ℤ :=
    if msg.count > (NUM_TARGETS : ℤ) then (NUM_TARGETS : ℤ) else msg.count
  let wall_margin := p.world_half * (20/100)
  let obs_clearance := p.world_half * (15/100)
  let r := (msg.tgt.take requested.toNat).foldl
    (target_accept_step p wall_margin obs_clearance) (arr0, 0)
  (r.1.take r.2 ++ (r.1.drop r.2).map deactivate_target, r.2)

/-- The blackboard state owned by B (server.c: cur_force, cur_state, paused,
the entity arrays and the scoring globals). -/
structure ServerState where
  cur_force : ForceStateMsg
  cur_state : DroneStateMsg
  paused : Bool
  obstacles : List Obstacle
  targets : List Target
  score : ℤ
  targets_collected : ℤ
  last_hit_step : ℤ
  step_counter : ℤ
  last_key : Char

/-- The keyboard branch of B's event loop (server.c lines 319-431).  Returns
(new state, messages written to D, quit?).  'q' quits; 'p' toggles pause and
zeroes-and-sends the force on entering pause; 'O' resets mirror and force,
sends with the reset flag, clears it locally and unpauses; any other key is a
brake/directional update accumulated and sent unless paused, in which case it
is only logged. -/
def handle_key (sq : ℚ → ℚ) (p : SimParams) (st : ServerState) (key : Char) :
    ServerState × List ForceStateMsg × Bool :=
  let st := { st with last_key := key }
  if key = 'q' then (st, [], true)
  else if key = 'p' then
    let pz := !st.paused
    if pz then
      let f : ForceStateMsg := { Fx := 0, Fy := 0, reset := false }
      ({ st with paused := pz, cur_force := f },
       [send_total_force_to_d sq f st.cur_state p st.obstacles], false)
    else ({ st with paused := pz }, [], false)
  else if key = 'O' then
    let s0 : DroneStateMsg := { x := 0, y := 0, vx := 0, vy := 0 }
    let fr : ForceStateMsg := { Fx := 0, Fy := 0, reset := true }
    let out := send_total_force_to_d sq fr s0 p st.obstacles
    ({ st with cur_state := s0, cur_force := { fr with reset := false },
               paused := false }, [out], false)
  else
    if !st.paused then
      let d := direction_from_key key
      let f : ForceStateMsg :=
        if key = 'd' then { Fx := 0, Fy := 0, reset := false }
        else { Fx := st.cur_force.Fx + d.1 * p.force_step,
               Fy := st.cur_force.Fy + d.2 * p.force_step, reset := false }
      ({ st with cur_force := f },
       [send_total_force_to_d sq f st.cur_state p st.obstacles], false)
    else (st, [], false)

/-- The dynamics-tick branch of B's event loop (server.c lines 469-546) after
a complete DroneStateMsg was read: update the state mirror, and only when not
paused advance the step counter, collect target hits, and age the obstacle
and target lifetimes; finally re-send the composed total force.  Returns
(new state, messages written to D). -/
def handle_tick (sq : ℚ → ℚ) (p : SimParams) (st : ServerState)
    (s : DroneStateMsg) : ServerState × List ForceStateMsg :=
  let st := { st with cur_state := s }
  let st := if st.paused then st
    else { st with step_counter := st.step_counter + 1 }
  let st := if st.paused then st
    else
      let r := check_target_hits st.cur_state st.targets p st.score
        st.targets_collected st.last_hit_step st.step_counter
      { st with targets := r.1, score := r.2.1, targets_collected := r.2.2.1,
                last_hit_step := r.2.2.2.1 }
  let st := if st.paused then st
    else { st with obstacles := st.obstacles.map age_obstacle,
                   targets := st.targets.map age_target }
  (st, [send_total_force_to_d sq st.cur_force st.cur_state p st.obstacles])

/-- The obstacle-batch branch of B's event loop (server.c lines 552-612):
a batch read while paused is discarded; otherwise it is validated and stored.
Note that the validation consults only the obstacle array, never `targets`. -/
def handle_obstacle_msg (p : SimParams) (st : ServerState)
    (msg : ObstacleSetMsg) : ServerState :=
  if st.paused then st
  else { st with obstacles := (process_obstacle_batch p st.obstacles msg).1 }

/-- The target-batch branch of B's event loop (server.c lines 618-684). -/
def handle_target_msg (p : SimParams) (st : ServerState)
    (msg : TargetSetMsg) : ServerState :=
  if st.paused then st
  else { st with targets := (process_target_batch p st.targets msg).1 }

/-- WatchdogState: last-heartbeat timestamp and warned flag (watchdog.c
`g_last_beat_ts` and `warned`). -/
structure WatchdogState where
  last_beat : ℚ
  warned : Bool

/-- The signals the watchdog emits: SIGUSR2 to B (warning) and SIGTERM to
each component (termination), tagged by recipient. -/
inductive WDSignal where
  | warnB
  | termB
  | termI
  | termD
  | termO
  | termT
deriving DecidableEq

/-- One iteration of the watchdog polling loop (watchdog.c lines 101-144)
with a simulated clock: `now` is the monotonic time of this poll and `beat`
tells whether a heartbeat signal was received since the previous poll.  A
beat refreshes last_beat and clears the warned flag; then, if the elapsed
time reaches warn_sec and no warning is pending, exactly one SIGUSR2 goes to
B; if it reaches kill_sec, SIGTERM is broadcast coordinator-first
(B, I, D, O, T) and the loop stops.  Returns (state, emitted signals,
stopped). -/
def watchdog_iter (warn_sec kill_sec : ℤ) (st : WatchdogState) (now : ℚ)
    (beat : Bool) : WatchdogState × List WDSignal × Bool :=
  let st := if beat then { last_beat := now, warned := false } else st
  let elapsed := now - st.last_beat
  let wr : WatchdogState × List WDSignal :=
    if ¬st.warned ∧ elapsed ≥ (warn_sec : ℚ) then
      ({ st with warned := true }, [WDSignal.warnB])
    else (st, [])
  if elapsed ≥ (kill_sec : ℚ) then
    (wr.1, wr.2 ++ [WDSignal.termB, WDSignal.termI, WDSignal.termD,
                    WDSignal.termO, WDSignal.termT], true)
  else (wr.1, wr.2, false)

/-- Running the watchdog loop over a trace of polls (time, beat?), collecting
every emitted signal; the loop halts right after a termination broadcast. -/
def watchdog_run (warn_sec kill_sec : ℤ) (st : WatchdogState) :
    List (ℚ × Bool) → List WDSignal
  | [] => []
  | (now, beat) :: rest =>
    let r := watchdog_iter warn_sec kill_sec st now beat
    if r.2.2 then r.2.1
    else r.2.1 ++ watchdog_run warn_sec kill_sec r.1 rest

/-! ### Helper lemmas -/

theorem wall_contrib_eq_zero (gain clearance eps d : ℚ) (h : clearance ≤ d) :
    wall_contrib gain clearance eps d = 0 := by
  unfold wall_contrib
  rw [if_neg (not_lt.mpr h)]

theorem computeP_walls_zero_of_clear (sq : ℚ → ℚ) (s : DroneStateMsg)
    (p : SimParams) (w : Bool)
    (h1 : p.wall_clearance ≤ p.world_half + s.x)
    (h2 : p.wall_clearance ≤ p.world_half - s.x)
    (h3 : p.wall_clearance ≤ p.world_half + s.y)
    (h4 : p.wall_clearance ≤ p.world_half - s.y) :
    compute_repulsive_P sq s p [] w false = (0, 0) := by
  unfold compute_repulsive_P
  simp only [Bool.false_eq_true, false_and, ne_eq, not_true_eq_false, and_false,
    if_false]
  split
  · rw [wall_contrib_eq_zero _ _ _ _ h1, wall_contrib_eq_zero _ _ _ _ h2,
      wall_contrib_eq_zero _ _ _ _ h3, wall_contrib_eq_zero _ _ _ _ h4]
    norm_num
  · rfl

/-! ### Claims -/

/-- C2 (counterexample): the claim says any ForceCommand with reset=true
yields DroneState {0,0,0,0} on the next tick regardless of the force it
carries; with default parameters and Fx=5 the dynamics loop zeroes the state
and then integrates one step with the adopted force, emitting
(x,y,vx,vy) = (1/80, 0, 1/4, 0) ≠ (0,0,0,0). -/
theorem reset_tick_c2_counterexample :
    (dynamics_tick (fun q => q) init_default_params
      { x := 7, y := -3, vx := 2, vy := 1 } { Fx := 0, Fy := 0, reset := false }
      (some { Fx := 5, Fy := 0, reset := true })).1 ≠
    { x := 0, y := 0, vx := 0, vy := 0 } := by
  intro h
  have hvx : (dynamics_tick (fun q => q) init_default_params
      { x := 7, y := -3, vx := 2, vy := 1 } { Fx := 0, Fy := 0, reset := false }
      (some { Fx := 5, Fy := 0, reset := true })).1.vx = 1/4 := by decide
  rw [h] at hvx
  exact absurd hvx (by norm_num)

/-- C2 (amended): a ForceCommand with reset=true makes D zero its state
*before* adopting the command's force and integrating the tick, so the
emitted state is the one-step integration from the zero state (and it equals
{0,0,0,0} exactly in the zero-force case: with Fx=Fy=0 and the default
parameters, whose wall repulsion vanishes at the origin, the next tick emits
{0,0,0,0} regardless of prior state). -/
theorem reset_tick_c2_amended :
    (∀ (sq : ℚ → ℚ) (p : SimParams) (s0 : DroneStateMsg) (f0 : ForceStateMsg)
      (c : ForceStateMsg), c.reset = true →
      dynamics_tick sq p s0 f0 (some c) =
        dynamics_tick sq p { x := 0, y := 0, vx := 0, vy := 0 } f0 (some c))
    ∧ (∀ (sq : ℚ → ℚ) (s0 : DroneStateMsg) (f0 : ForceStateMsg),
      (dynamics_tick sq init_default_params s0 f0
        (some { Fx := 0, Fy := 0, reset := true })).1 =
      { x := 0, y := 0, vx := 0, vy := 0 }) := by
  constructor
  · intro sq p s0 f0 c h
    obtain ⟨cFx, cFy, cr⟩ := c
    cases cr with
    | false => simp at h
    | true => simp [dynamics_tick]
  · intro sq s0 f0
    have hP : compute_repulsive_P sq { x := 0, y := 0, vx := 0, vy := 0 }
        init_default_params [] true false = (0, 0) :=
      computeP_walls_zero_of_clear sq _ _ true
        (by norm_num [init_default_params]) (by norm_num [init_default_params])
        (by norm_num [init_default_params]) (by norm_num [init_default_params])
    unfold dynamics_tick
    norm_num
    rw [hP]
    norm_num [init_default_params]

/-- C2 witness for the amended theorem's hypotheses at a concrete input. -/
theorem reset_tick_c2_witness :
    dynamics_tick (fun q => q) init_default_params
      { x := 3, y := 4, vx := 1, vy := 2 } { Fx := 1, Fy := 1, reset := false }
      (some { Fx := 2, Fy := 0, reset := true }) =
    dynamics_tick (fun q => q) init_default_params
      { x := 0, y := 0, vx := 0, vy := 0 } { Fx := 1, Fy := 1, reset := false }
      (some { Fx := 2, Fy := 0, reset := true }) :=
  reset_tick_c2_amended.1 (fun q => q) init_default_params
    { x := 3, y := 4, vx := 1, vy := 2 } { Fx := 1, Fy := 1, reset := false }
    { Fx := 2, Fy := 0, reset := true } rfl

/-- C4: with the default parameters (mass=1, visc=1, dt=0.05, force_step=5,
world_half=50) and the drone at rest with no wall repulsion, one tick of D
after ForceCommand{Fx=5, Fy=0} yields exactly vx=1/4 and a displacement of
1/80 with y and vy unchanged at 0: from the initial zero state the emitted
state is exactly (x,y,vx,vy) = (0.0125, 0, 0.25, 0), and from rest at any
position at least wall_clearance away from every wall the emitted state is
(x0 + 0.0125, y0, 0.25, 0). -/
theorem one_tick_scenario_c4 :
    (∀ sq : ℚ → ℚ,
      (dynamics_tick sq init_default_params { x := 0, y := 0, vx := 0, vy := 0 }
        { Fx := 0, Fy := 0, reset := false }
        (some { Fx := 5, Fy := 0, reset := false })).1 =
      { x := 1/80, y := 0, vx := 1/4, vy := 0 })
    ∧ (∀ (sq : ℚ → ℚ) (x0 y0 : ℚ), |x0| ≤ 45 → |y0| ≤ 45 →
      (dynamics_tick sq init_default_params { x := x0, y := y0, vx := 0, vy := 0 }
        { Fx := 0, Fy := 0, reset := false }
        (some { Fx := 5, Fy := 0, reset := false })).1 =
      { x := x0 + 1/80, y := y0, vx := 1/4, vy := 0 }) := by
  constructor
  · intro sq
    have hP : compute_repulsive_P sq { x := 0, y := 0, vx := 0, vy := 0 }
        init_default_params [] true false = (0, 0) :=
      computeP_walls_zero_of_clear sq _ _ true
        (by norm_num [init_default_params]) (by norm_num [init_default_params])
        (by norm_num [init_default_params]) (by norm_num [init_default_params])
    unfold dynamics_tick
    norm_num
    rw [hP]
    norm_num [init_default_params]
  · intro sq x0 y0 hx hy
    obtain ⟨hx1, hx2⟩ := abs_le.mp hx
    obtain ⟨hy1, hy2⟩ := abs_le.mp hy
    have hP : compute_repulsive_P sq { x := x0, y := y0, vx := 0, vy := 0 }
        init_default_params [] true false = (0, 0) := by
      apply computeP_walls_zero_of_clear <;>
        simp only [init_default_params] <;> linarith
    unfold dynamics_tick
    norm_num
    rw [hP]
    norm_num [init_default_params]

/-- C4 witness for the general part at a concrete clear-of-walls position. -/
theorem one_tick_scenario_c4_witness :
    (dynamics_tick (fun q => q) init_default_params
      { x := 10, y := -20, vx := 0, vy := 0 } { Fx := 0, Fy := 0, reset := false }
      (some { Fx := 5, Fy := 0, reset := false })).1 =
    { x := 10 + 1/80, y := -20, vx := 1/4, vy := 0 } :=
  one_tick_scenario_c4.2 (fun q => q) 10 (-20) (by norm_num) (by norm_num)

/-- Shared helper: quantizing g_dir8[0] returns index 0. -/
theorem quantizer_dir0 :
    best_dir8_for_vector (g_dir8.getD 0 { key := '?', ux := 0, uy := 0 }).ux
      (g_dir8.getD 0 { key := '?', ux := 0, uy := 0 }).uy = 0 := by decide

/-- Shared helper: quantizing g_dir8[1] returns index 1. -/
theorem quantizer_dir1 :
    best_dir8_for_vector (g_dir8.getD 1 { key := '?', ux := 0, uy := 0 }).ux
      (g_dir8.getD 1 { key := '?', ux := 0, uy := 0 }).uy = 1 := by decide

/-- Shared helper: quantizing g_dir8[2] returns index 2. -/
theorem quantizer_dir2 :
    best_dir8_for_vector (g_dir8.getD 2 { key := '?', ux := 0, uy := 0 }).ux
      (g_dir8.getD 2 { key := '?', ux := 0, uy := 0 }).uy = 2 := by decide

/-- Shared helper: quantizing g_dir8[3] returns index 3. -/
theorem quantizer_dir3 :
    best_dir8_for_vector (g_dir8.getD 3 { key := '?', ux := 0, uy := 0 }).ux
      (g_dir8.getD 3 { key := '?', ux := 0, uy := 0 }).uy = 3 := by decide

/-- Shared helper: quantizing g_dir8[4] returns index 4. -/
theorem quantizer_dir4 :
    best_dir8_for_vector (g_dir8.getD 4 { key := '?', ux := 0, uy := 0 }).ux
      (g_dir8.getD 4 { key := '?', ux := 0, uy := 0 }).uy = 4 := by decide

/-- Shared helper: quantizing g_dir8[5] returns index 5. -/
theorem quantizer_dir5 :
    best_dir8_for_vector (g_dir8.getD 5 { key := '?', ux := 0, uy := 0 }).ux
      (g_dir8.getD 5 { key := '?', ux := 0, uy := 0 }).uy = 5 := by decide

/-- Shared helper: quantizing g_dir8[6] returns index 6. -/
theorem quantizer_dir6 :
    best_dir8_for_vector (g_dir8.getD 6 { key := '?', ux := 0, uy := 0 }).ux
      (g_dir8.getD 6 { key := '?', ux := 0, uy := 0 }).uy = 6 := by decide

/-- Shared helper: quantizing g_dir8[7] returns index 7. -/
theorem quantizer_dir7 :
    best_dir8_for_vector (g_dir8.getD 7 { key := '?', ux := 0, uy := 0 }).ux
      (g_dir8.getD 7 { key := '?', ux := 0, uy := 0 }).uy = 7 := by decide

/-- Shared helper: the best-direction fold never leaves its start value when
every projection is at most the starting best dot product. -/
theorem bestDir_fold_nonpos (Px Py : ℚ) :
    ∀ (l : List (Nat × Dir8)) (b : ℚ × ℤ),
      (∀ e ∈ l, dot2 Px Py e.2.ux e.2.uy ≤ b.1) →
      l.foldl (bestDirStep Px Py) b = b := by
  intro l
  induction l with
  | nil => intro b _; rfl
  | cons e rest ih =>
    intro b h
    have he := h e (by simp)
    simp only [List.foldl_cons, bestDirStep]
    rw [if_neg (not_lt.mpr he)]
    exact ih b (fun x hx => h x (by simp [hx]))

/-- C7: quantizing each of the 8 canonical direction vectors of `g_dir8`
returns that direction's own index; quantizing the zero vector returns -1
("no direction"), and so does any vector whose projections on all 8
directions are non-positive. -/
theorem quantizer_c7 :
    (∀ n : Nat, n < 8 →
      best_dir8_for_vector (g_dir8.getD n { key := '?', ux := 0, uy := 0 }).ux
        (g_dir8.getD n { key := '?', ux := 0, uy := 0 }).uy = (n : ℤ))
    ∧ best_dir8_for_vector 0 0 = -1
    ∧ (∀ Px Py : ℚ, (∀ d ∈ g_dir8, dot2 Px Py d.ux d.uy ≤ 0) →
      best_dir8_for_vector Px Py = -1) := by
  refine ⟨?_, by decide, ?_⟩
  · intro n hn
    match n, hn with
    | 0, _ => exact quantizer_dir0
    | 1, _ => exact quantizer_dir1
    | 2, _ => exact quantizer_dir2
    | 3, _ => exact quantizer_dir3
    | 4, _ => exact quantizer_dir4
    | 5, _ => exact quantizer_dir5
    | 6, _ => exact quantizer_dir6
    | 7, _ => exact quantizer_dir7
  intro Px Py h
  unfold best_dir8_for_vector
  rw [bestDir_fold_nonpos Px Py g_dir8.enum (0, -1) ?_]
  intro e he
  have h2 : g_dir8[e.1]? = some e.2 := List.mem_enum_iff_getElem?.mp he
  obtain ⟨hlt, hget⟩ := List.getElem?_eq_some.mp h2
  exact hget ▸ h _ (List.getElem_mem hlt)

/-- C7 witness: the per-index part at index 1 and the
all-non-positive-projections part at the zero vector. -/
theorem quantizer_c7_witness :
    best_dir8_for_vector (g_dir8.getD 1 { key := '?', ux := 0, uy := 0 }).ux
      (g_dir8.getD 1 { key := '?', ux := 0, uy := 0 }).uy = ((1:Nat) : ℤ) ∧
    best_dir8_for_vector 0 0 = -1 :=
  ⟨quantizer_c7.1 1 (by decide), quantizer_c7.2.2 0 0 (by decide)⟩

/-- C8 (counterexample): the claim says the virtual-key step count equals
the projection divided by force_step rounded to the nearest integer; the code
divides by force_step + 1e-9 instead, so for projection 2.5 + 2.5e-10 with
force_step 5 the code yields 0 while the nearest integer to
projection/force_step (= 0.50000000005) is 1. -/
theorem vk_steps_c8_counterexample :
    vk_steps init_default_params (25000000001/10000000000) ≠
    spec_round_steps init_default_params (25000000001/10000000000) := by decide

/-- C8 (amended): the step count is the half-up rounding of the projection
divided by (force_step + 1e-9) — floor(projection/(force_step+1e-9) + 1/2)
for positive projections — and it has no upper clamp: for every bound N some
positive projection makes the count exceed N. -/
theorem vk_steps_c8_amended :
    (∀ d : ℚ, 0 < d →
      vk_steps init_default_params d =
        ⌊d / (init_default_params.force_step + 1/1000000000) + 1/2⌋)
    ∧ (∀ N : ℤ, ∃ d : ℚ, 0 < d ∧ vk_steps init_default_params d > N) := by
  constructor
  · intro d hd
    unfold vk_steps c_trunc
    rw [if_pos]
    have h5 : (0:ℚ) < init_default_params.force_step + 1/1000000000 := by
      simp only [init_default_params]; norm_num
    have := div_pos hd h5
    linarith
  · intro N
    refine ⟨((N.natAbs + 1 : ℕ) : ℚ) *
      (init_default_params.force_step + 1/1000000000), ?_, ?_⟩
    · have h5 : (0:ℚ) < init_default_params.force_step + 1/1000000000 := by
        simp only [init_default_params]; norm_num
      positivity
    · have h5 : (init_default_params.force_step + 1/1000000000 : ℚ) ≠ 0 := by
        simp only [init_default_params]; norm_num
      unfold vk_steps c_trunc
      rw [mul_div_assoc, div_self h5, mul_one, if_pos (by positivity)]
      have hfl : ∀ k : ℕ, ⌊((k : ℕ) : ℚ) + 1/2⌋ = (k : ℤ) := by
        intro k
        rw [Int.floor_eq_iff]
        constructor
        · push_cast
          linarith
        · push_cast
          linarith
      rw [hfl (N.natAbs + 1)]
      omega

/-- C8 witness for the amended theorem at a concrete projection. -/
theorem vk_steps_c8_witness :
    vk_steps init_default_params 5 =
      ⌊(5:ℚ) / (init_default_params.force_step + 1/1000000000) + 1/2⌋ :=
  vk_steps_c8_amended.1 5 (by norm_num)

/-- C6: on every send to D the transmitted message is the user force plus the
virtual-key force quantized from the obstacle-repulsion field — a function of
the current state, parameters and obstacle set only, recomputed at each send
— with the reset flag passed through; when the repulsion is negligible
(squared norm below 1e-6) the user force is sent alone; and the dynamics-tick
branch of B, which performs this send, leaves the user-force accumulator
`cur_force` unchanged. -/
theorem send_compose_c6 :
    (∀ (sq : ℚ → ℚ) (user : ForceStateMsg) (cur : DroneStateMsg)
      (p : SimParams) (obs : List Obstacle),
      send_total_force_to_d sq user cur p obs =
        { Fx := user.Fx + (virtual_key_force sq cur p obs).1,
          Fy := user.Fy + (virtual_key_force sq cur p obs).2,
          reset := user.reset })
    ∧ (∀ (sq : ℚ → ℚ) (user : ForceStateMsg) (cur : DroneStateMsg)
      (p : SimParams) (obs : List Obstacle),
      (compute_repulsive_P sq cur p obs false true).1 *
          (compute_repulsive_P sq cur p obs false true).1 +
        (compute_repulsive_P sq cur p obs false true).2 *
          (compute_repulsive_P sq cur p obs false true).2 < 1/1000000 →
      send_total_force_to_d sq user cur p obs = user)
    ∧ (∀ (sq : ℚ → ℚ) (p : SimParams) (st : ServerState) (s : DroneStateMsg),
      (handle_tick sq p st s).1.cur_force = st.cur_force) := by
  refine ⟨?_, ?_, ?_⟩
  · intro sq user cur p obs
    simp only [send_total_force_to_d, virtual_key_force]
    split_ifs <;> cases user <;> simp
  · intro sq user cur p obs h
    simp only [send_total_force_to_d]
    rw [if_pos h]
  · intro sq p st s
    cases hst : st.paused <;> simp [handle_tick, hst]

/-- C6 witness: the negligible-repulsion part at a concrete input (no active
obstacles, so the field is exactly zero). -/
theorem send_compose_c6_witness :
    send_total_force_to_d (fun q => q) { Fx := 3, Fy := -2, reset := false }
      { x := 0, y := 0, vx := 0, vy := 0 } init_default_params [] =
    { Fx := 3, Fy := -2, reset := false } :=
  send_compose_c6.2.1 (fun q => q) { Fx := 3, Fy := -2, reset := false }
    { x := 0, y := 0, vx := 0, vy := 0 } init_default_params [] (by decide)

/-- C9: while paused, a directional (or any non-'q'/'p'/'O') key leaves B's
state unchanged except for the logged last_key — in particular the user-force
accumulator is untouched and nothing is sent to D — and a dynamics tick
performs no aging of obstacles or targets, no scoring, and no step-count
advance, while the tick is still received: the state mirror is updated to the
incoming DroneStateMsg and the composed force is still re-sent to D. -/
theorem pause_semantics_c9 :
    (∀ (sq : ℚ → ℚ) (p : SimParams) (st : ServerState) (key : Char),
      st.paused = true → key ≠ 'q' → key ≠ 'p' → key ≠ 'O' →
      (handle_key sq p st key).1 = { st with last_key := key } ∧
      (handle_key sq p st key).2.1 = [])
    ∧ (∀ (sq : ℚ → ℚ) (p : SimParams) (st : ServerState) (s : DroneStateMsg),
      st.paused = true →
      (handle_tick sq p st s).1.obstacles = st.obstacles
      ∧ (handle_tick sq p st s).1.targets = st.targets
      ∧ (handle_tick sq p st s).1.score = st.score
      ∧ (handle_tick sq p st s).1.step_counter = st.step_counter
      ∧ (handle_tick sq p st s).1.cur_force = st.cur_force
      ∧ (handle_tick sq p st s).1.cur_state = s
      ∧ (handle_tick sq p st s).2 =
          [send_total_force_to_d sq st.cur_force s p st.obstacles]) := by
  constructor
  · intro sq p st key hp hq hpk hO
    simp [handle_key, hq, hpk, hO, hp]
  · intro sq p st s hp
    simp [handle_tick, hp]

/-- C9 witness at a concrete paused state, key and tick. -/
theorem pause_semantics_c9_witness :
    (handle_key (fun q => q) init_default_params
      { cur_force := { Fx := 5, Fy := 0, reset := false },
        cur_state := { x := 1, y := 2, vx := 0, vy := 0 },
        paused := true, obstacles := [], targets := [],
        score := 0, targets_collected := 0, last_hit_step := -1,
        step_counter := 7, last_key := '?' } 'w').1 =
    { cur_force := { Fx := 5, Fy := 0, reset := false },
      cur_state := { x := 1, y := 2, vx := 0, vy := 0 },
      paused := true, obstacles := [], targets := [],
      score := 0, targets_collected := 0, last_hit_step := -1,
      step_counter := 7, last_key := 'w' } :=
  (pause_semantics_c9.1 (fun q => q) init_default_params
    { cur_force := { Fx := 5, Fy := 0, reset := false },
      cur_state := { x := 1, y := 2, vx := 0, vy := 0 },
      paused := true, obstacles := [], targets := [],
      score := 0, targets_collected := 0, last_hit_step := -1,
      step_counter := 7, last_key := '?' } 'w' rfl (by decide) (by decide)
    (by decide)).1

/-- Shared helper: taking one past a just-set index splits off the new
element. -/
theorem take_set_succ {α : Type} (a : α) :
    ∀ (l : List α) (k : Nat), k < l.length →
      (l.set k a).take (k+1) = l.take k ++ [a] := by
  intro l
  induction l with
  | nil => intro k h; simp at h
  | cons x xs ih =>
    intro k h
    cases k with
    | zero => simp
    | succ k =>
      simp only [List.set_cons_succ, List.take_succ_cons, List.cons_append,
        List.cons.injEq, true_and]
      exact ih k (by simpa using h)

/-- Shared helper: the acceptance loops of server.c preserve, over any batch,
that the array length is the capacity, the accepted count is at most the
capacity, and every entry below the accepted count is active — provided each
loop step either leaves the state unchanged or stores one active entry at the
accepted index and increments it. -/
theorem accept_fold_inv {α β : Type} (N : Nat)
    (step : List α × Nat → β → List α × Nat) (activeP : α → Bool)
    (hstep : ∀ s c, step s c = s ∨
      ∃ a, activeP a = true ∧ s.2 < N ∧ step s c = (s.1.set s.2 a, s.2 + 1)) :
    ∀ (cands : List β) (arr : List α) (acc : Nat),
      arr.length = N → acc ≤ N →
      (∀ x ∈ arr.take acc, activeP x = true) →
      (cands.foldl step (arr, acc)).1.length = N ∧
      (cands.foldl step (arr, acc)).2 ≤ N ∧
      (∀ x ∈ (cands.foldl step (arr, acc)).1.take
          (cands.foldl step (arr, acc)).2, activeP x = true) := by
  intro cands
  induction cands with
  | nil => intro arr acc h1 h2 h3; exact ⟨h1, h2, h3⟩
  | cons c rest ih =>
    intro arr acc h1 h2 h3
    simp only [List.foldl_cons]
    rcases hstep (arr, acc) c with h | ⟨a, ha, hlt, heq⟩
    · rw [h]
      exact ih arr acc h1 h2 h3
    · rw [heq]
      apply ih
      · simpa using h1
      · omega
      · intro x hx
        rw [take_set_succ a arr acc (by omega)] at hx
        rcases List.mem_append.mp hx with hx | hx
        · exact h3 x hx
        · rw [List.mem_singleton.mp hx]
          exact ha

/-- Shared helper: after the trailing-slot deactivation loop, the array keeps
its length, the first `acc` slots are the (active) accepted entries, every
further slot is inactive with lifetime 0, and the active count is exactly
`acc`. -/
theorem batch_final_spec {α : Type} (dflt : α) (activeP : α → Bool)
    (lifeF : α → ℤ) (deact : α → α)
    (hd1 : ∀ a, activeP (deact a) = false) (hd2 : ∀ a, lifeF (deact a) = 0)
    (N : Nat) (arr : List α) (acc : Nat)
    (hlen : arr.length = N) (hacc : acc ≤ N)
    (hact : ∀ x ∈ arr.take acc, activeP x = true) :
    (arr.take acc ++ (arr.drop acc).map deact).length = N ∧
    (∀ i, i < acc →
      activeP ((arr.take acc ++ (arr.drop acc).map deact).getD i dflt) = true) ∧
    (∀ i, acc ≤ i → i < N →
      activeP ((arr.take acc ++ (arr.drop acc).map deact).getD i dflt) = false ∧
      lifeF ((arr.take acc ++ (arr.drop acc).map deact).getD i dflt) = 0) ∧
    (arr.take acc ++ (arr.drop acc).map deact).countP activeP = acc := by
  have hlt : (arr.take acc).length = acc := by
    rw [List.length_take]
    omega
  refine ⟨?_, ?_, ?_, ?_⟩
  · simp only [List.length_append, List.length_map, List.length_drop, hlt]
    omega
  · intro i hi
    rw [List.getD_append _ _ _ _ (by omega)]
    have hi2 : i < (arr.take acc).length := by omega
    rw [List.getD_eq_getElem _ _ hi2]
    exact hact _ (List.getElem_mem hi2)
  · intro i hi1 hi2
    rw [List.getD_append_right _ _ _ _ (by omega)]
    have hi3 : i - (arr.take acc).length < ((arr.drop acc).map deact).length := by
      simp only [List.length_map, List.length_drop]
      omega
    rw [List.getD_eq_getElem _ _ hi3]
    rw [List.getElem_map]
    exact ⟨hd1 _, hd2 _⟩
  · rw [List.countP_append]
    have c1 : (arr.take acc).countP activeP = acc := by
      rw [List.countP_eq_length.mpr hact, hlt]
    have c2 : ((arr.drop acc).map deact).countP activeP = 0 := by
      rw [List.countP_eq_zero.mpr]
      intro a ha
      obtain ⟨b, -, rfl⟩ := List.mem_map.mp ha
      simp [hd1]
    rw [c1, c2]
    omega

/-- Shared helper: each obstacle-acceptance step either rejects (state
unchanged) or stores one active entry at the accepted index. -/
theorem obstacle_accept_step_cases (clr : ℚ) (s : List Obstacle × Nat)
    (c : EntityCand) :
    obstacle_accept_step clr s c = s ∨
    ∃ a : Obstacle, a.active = true ∧ s.2 < NUM_OBSTACLES ∧
      obstacle_accept_step clr s c = (s.1.set s.2 a, s.2 + 1) := by
  unfold obstacle_accept_step
  split_ifs with h1 h2
  · left; rfl
  · right
    exact ⟨_, rfl, h2, rfl⟩
  · left; rfl

/-- Shared helper: each target-acceptance step either rejects or stores one
active entry at the accepted index. -/
theorem target_accept_step_cases (p : SimParams) (wm oc : ℚ)
    (s : List Target × Nat) (c : EntityCand) :
    target_accept_step p wm oc s c = s ∨
    ∃ a : Target, a.active = true ∧ s.2 < NUM_TARGETS ∧
      target_accept_step p wm oc s c = (s.1.set s.2 a, s.2 + 1) := by
  unfold target_accept_step
  split_ifs with h1 h2 h3
  · left; rfl
  · left; rfl
  · right
    exact ⟨_, rfl, h3, rfl⟩
  · left; rfl

/-- C5: after B processes an obstacle or target batch against a
capacity-sized array, the entries at indices 0..accepted-1 are active, every
remaining slot up to the capacity is inactive with lifetime 0, and the number
of active entries equals (so never exceeds) the accepted count. -/
theorem batch_capacity_c5 :
    (∀ (p : SimParams) (arr0 : List Obstacle) (msg : ObstacleSetMsg),
      arr0.length = NUM_OBSTACLES →
      (process_obstacle_batch p arr0 msg).1.length = NUM_OBSTACLES
      ∧ (process_obstacle_batch p arr0 msg).2 ≤ NUM_OBSTACLES
      ∧ (∀ i, i < (process_obstacle_batch p arr0 msg).2 →
          ((process_obstacle_batch p arr0 msg).1.getD i
            { x := 0, y := 0, active := false, life_steps := 0 }).active = true)
      ∧ (∀ i, (process_obstacle_batch p arr0 msg).2 ≤ i → i < NUM_OBSTACLES →
          ((process_obstacle_batch p arr0 msg).1.getD i
            { x := 0, y := 0, active := false, life_steps := 0 }).active = false
          ∧ ((process_obstacle_batch p arr0 msg).1.getD i
            { x := 0, y := 0, active := false, life_steps := 0 }).life_steps = 0)
      ∧ (process_obstacle_batch p arr0 msg).1.countP (fun o => o.active)
          = (process_obstacle_batch p arr0 msg).2)
    ∧ (∀ (p : SimParams) (arr0 : List Target) (msg : TargetSetMsg),
      arr0.length = NUM_TARGETS →
      (process_target_batch p arr0 msg).1.length = NUM_TARGETS
      ∧ (process_target_batch p arr0 msg).2 ≤ NUM_TARGETS
      ∧ (∀ i, i < (process_target_batch p arr0 msg).2 →
          ((process_target_batch p arr0 msg).1.getD i
            { x := 0, y := 0, active := false, life_steps := 0 }).active = true)
      ∧ (∀ i, (process_target_batch p arr0 msg).2 ≤ i → i < NUM_TARGETS →
          ((process_target_batch p arr0 msg).1.getD i
            { x := 0, y := 0, active := false, life_steps := 0 }).active = false
          ∧ ((process_target_batch p arr0 msg).1.getD i
            { x := 0, y := 0, active := false, life_steps := 0 }).life_steps = 0)
      ∧ (process_target_batch p arr0 msg).1.countP (fun t => t.active)
          = (process_target_batch p arr0 msg).2) := by
  constructor
  · intro p arr0 msg h0
    obtain ⟨hl, ha, hact⟩ := accept_fold_inv NUM_OBSTACLES
      (obstacle_accept_step (p.world_half * (15/100))) (fun o => o.active)
      (obstacle_accept_step_cases _)
      (msg.obs.take (if msg.count > (NUM_OBSTACLES : ℤ) then (NUM_OBSTACLES : ℤ)
        else msg.count).toNat) arr0 0 h0 (by omega) (by simp)
    have hfin := batch_final_spec
      { x := 0, y := 0, active := false, life_steps := 0 }
      (fun o => o.active) (fun o => o.life_steps) deactivate_obstacle
      (fun a => rfl) (fun a => rfl) NUM_OBSTACLES _ _ hl ha hact
    simp only [process_obstacle_batch]
    exact ⟨hfin.1, ha, hfin.2.1, hfin.2.2.1, hfin.2.2.2⟩
  · intro p arr0 msg h0
    obtain ⟨hl, ha, hact⟩ := accept_fold_inv NUM_TARGETS
      (target_accept_step p (p.world_half * (20/100)) (p.world_half * (15/100)))
      (fun t => t.active) (target_accept_step_cases p _ _)
      (msg.tgt.take (if msg.count > (NUM_TARGETS : ℤ) then (NUM_TARGETS : ℤ)
        else msg.count).toNat) arr0 0 h0 (by omega) (by simp)
    have hfin := batch_final_spec
      { x := 0, y := 0, active := false, life_steps := 0 }
      (fun t => t.active) (fun t => t.life_steps) deactivate_target
      (fun a => rfl) (fun a => rfl) NUM_TARGETS _ _ hl ha hact
    simp only [process_target_batch]
    exact ⟨hfin.1, ha, hfin.2.1, hfin.2.2.1, hfin.2.2.2⟩

/-- C5 witness at a concrete two-candidate batch against an inactive array. -/
theorem batch_capacity_c5_witness :
    (process_obstacle_batch init_default_params
      (List.replicate 12 { x := 0, y := 0, active := false, life_steps := 0 })
      { count := 2, obs := [{ x := 1, y := 1, life_steps := 9 },
                            { x := 30, y := 30, life_steps := 9 }] }).1.countP
      (fun o => o.active) =
    (process_obstacle_batch init_default_params
      (List.replicate 12 { x := 0, y := 0, active := false, life_steps := 0 })
      { count := 2, obs := [{ x := 1, y := 1, life_steps := 9 },
                            { x := 30, y := 30, life_steps := 9 }] }).2 :=
  (batch_capacity_c5.1 init_default_params
    (List.replicate 12 { x := 0, y := 0, active := false, life_steps := 0 })
    { count := 2, obs := [{ x := 1, y := 1, life_steps := 9 },
                          { x := 30, y := 30, life_steps := 9 }] }
    (by decide)).2.2.2.2

/-- Shared helper: an active entry whose lifetime counter is already 0 is a
fixed point of the per-tick obstacle aging. -/
theorem age_obstacle_fix (o : Obstacle) (_h1 : o.active = true)
    (h2 : o.life_steps = 0) : age_obstacle o = o := by
  simp [age_obstacle, h2]

/-- C10: a batch candidate accepted with assigned lifetime 0 is stored active
with life_steps = 0; the aging step leaves an active lifetime-0 entry exactly
unchanged — for any number of ticks — and an active entry with positive
lifetime is deactivated by aging exactly when its counter reaches 0, i.e.
when its lifetime was 1; hence a lifetime-0 entry stays active indefinitely
until overwritten by a later batch or (for targets) consumed by a hit. -/
theorem zero_lifetime_entities_c10 :
    (∀ (clr : ℚ) (arr : List Obstacle) (acc : Nat) (c : EntityCand),
      c.life_steps = 0 →
      too_close_to_any_pointlike c.x c.y (arr.map Obstacle.toPointLike) clr
        = false →
      acc < NUM_OBSTACLES →
      obstacle_accept_step clr (arr, acc) c =
        (arr.set acc { x := c.x, y := c.y, active := true, life_steps := 0 },
         acc + 1))
    ∧ (∀ (n : Nat) (o : Obstacle), o.active = true → o.life_steps = 0 →
        age_obstacle^[n] o = o)
    ∧ (∀ o : Obstacle, o.active = true → 0 < o.life_steps →
        ((age_obstacle o).active = false ↔ o.life_steps = 1)) := by
  refine ⟨?_, ?_, ?_⟩
  · intro clr arr acc c h1 h2 h3
    simp [obstacle_accept_step, h1, h2, h3]
  · intro n o h1 h2
    induction n with
    | zero => rfl
    | succ k ih =>
      rw [Function.iterate_succ_apply, age_obstacle_fix o h1 h2, ih]
  · intro o h1 h2
    unfold age_obstacle
    rw [if_pos ⟨h1, h2⟩]
    by_cases hl : o.life_steps - 1 = 0
    · rw [if_pos hl]
      simp
      omega
    · rw [if_neg hl]
      simp [h1]
      omega

/-- C10 witness at a concrete zero-lifetime entry. -/
theorem zero_lifetime_entities_c10_witness :
    age_obstacle^[100] { x := 1, y := 2, active := true, life_steps := 0 } =
    { x := 1, y := 2, active := true, life_steps := 0 } :=
  zero_lifetime_entities_c10.2.1 100
    { x := 1, y := 2, active := true, life_steps := 0 } rfl rfl

/-- Shared helper: once the warned flag is set, a beat-free stretch of polls
that stays below the kill threshold emits no further warning. -/
theorem watchdog_run_warned_no_warn (warn kill : ℤ) (t0 : ℚ) :
    ∀ trace : List (ℚ × Bool),
      (∀ e ∈ trace, e.2 = false) →
      (∀ e ∈ trace, e.1 - t0 < (kill : ℚ)) →
      (watchdog_run warn kill { last_beat := t0, warned := true } trace).count
        WDSignal.warnB = 0 := by
  intro trace
  induction trace with
  | nil => intro _ _; rfl
  | cons e rest ih =>
    intro h1 h2
    obtain ⟨now, beat⟩ := e
    have hb : beat = false := h1 (now, beat) (by simp)
    subst hb
    have hk : ¬((kill:ℚ) ≤ now - t0) := not_le.mpr (h2 (now, false) (by simp))
    simp only [watchdog_run, watchdog_iter, Bool.false_eq_true, if_false,
      not_true_eq_false, false_and, if_neg hk]
    exact ih (fun x hx => h1 x (by simp [hx]))
      (fun x hx => h2 x (by simp [hx]))

/-- Shared helper: starting unwarned, a beat-free stretch of polls that stays
below the kill threshold emits exactly one warning if some poll reaches the
warn threshold and none otherwise. -/
theorem watchdog_run_unwarned_count (warn kill : ℤ) (t0 : ℚ) :
    ∀ trace : List (ℚ × Bool),
      (∀ e ∈ trace, e.2 = false) →
      (∀ e ∈ trace, e.1 - t0 < (kill : ℚ)) →
      (watchdog_run warn kill { last_beat := t0, warned := false } trace).count
        WDSignal.warnB =
      (if ∃ e ∈ trace, (warn : ℚ) ≤ e.1 - t0 then 1 else 0) := by
  intro trace
  induction trace with
  | nil => intro _ _; simp [watchdog_run]
  | cons e rest ih =>
    intro h1 h2
    obtain ⟨now, beat⟩ := e
    have hb : beat = false := h1 (now, beat) (by simp)
    subst hb
    have hk : ¬((kill:ℚ) ≤ now - t0) := not_le.mpr (h2 (now, false) (by simp))
    have h1r : ∀ x ∈ rest, x.2 = false := fun x hx => h1 x (by simp [hx])
    have h2r : ∀ x ∈ rest, x.1 - t0 < (kill:ℚ) := fun x hx => h2 x (by simp [hx])
    by_cases hw : (warn:ℚ) ≤ now - t0
    · simp only [watchdog_run, watchdog_iter, Bool.false_eq_true, if_false,
        not_false_eq_true, true_and, if_pos hw, if_neg hk, List.count_append]
      rw [watchdog_run_warned_no_warn warn kill t0 rest h1r h2r]
      have hex : ∃ e ∈ (now, false) :: rest, (warn:ℚ) ≤ e.1 - t0 :=
        ⟨(now, false), by simp, hw⟩
      rw [if_pos hex]
      norm_num
    · simp only [watchdog_run, watchdog_iter, Bool.false_eq_true, if_false,
        not_false_eq_true, true_and, if_neg hw, if_neg hk, List.count_append,
        List.count_nil]
      rw [ih h1r h2r]
      by_cases he : ∃ x ∈ rest, (warn:ℚ) ≤ x.1 - t0
      · rw [if_pos he, if_pos (by
          obtain ⟨x, hx, hwx⟩ := he
          exact ⟨x, by simp [hx], hwx⟩)]
      · rw [if_neg he, if_neg ?_]
        rintro ⟨x, hx, hwx⟩
        rcases List.mem_cons.mp hx with rfl | hx2
        · exact hw hwx
        · exact he ⟨x, hx2, hwx⟩

/-- C3: in the watchdog loop over a simulated clock, (a) a beat-free stretch
of polls that never reaches kill_sec emits exactly one warning to B if some
poll reaches warn_sec since the last heartbeat, and none otherwise (no
repetition within the episode); (b) a poll whose elapsed time reaches
kill_sec emits the termination broadcast to every component in
coordinator-first order (B, I, D, O, T) and stops the loop; (c) a poll that
records a heartbeat resets the elapsed-time clock to that instant and clears
the warned flag, and (for positive thresholds) emits nothing and does not
terminate. -/
theorem watchdog_escalation_c3 :
    (∀ (warn_sec kill_sec : ℤ) (t0 : ℚ) (trace : List (ℚ × Bool)),
      (∀ e ∈ trace, e.2 = false) →
      (∀ e ∈ trace, e.1 - t0 < (kill_sec : ℚ)) →
      (watchdog_run warn_sec kill_sec { last_beat := t0, warned := false }
        trace).count WDSignal.warnB =
      (if ∃ e ∈ trace, (warn_sec : ℚ) ≤ e.1 - t0 then 1 else 0))
    ∧ (∀ (warn_sec kill_sec : ℤ) (st : WatchdogState) (now : ℚ),
      (kill_sec : ℚ) ≤ now - st.last_beat →
      (watchdog_iter warn_sec kill_sec st now false).2.1 =
        (if ¬st.warned ∧ (warn_sec : ℚ) ≤ now - st.last_beat
          then [WDSignal.warnB] else [])
          ++ [WDSignal.termB, WDSignal.termI, WDSignal.termD, WDSignal.termO,
              WDSignal.termT]
      ∧ (watchdog_iter warn_sec kill_sec st now false).2.2 = true)
    ∧ (∀ (warn_sec kill_sec : ℤ) (st : WatchdogState) (now : ℚ),
      0 < warn_sec → 0 < kill_sec →
      watchdog_iter warn_sec kill_sec st now true =
        ({ last_beat := now, warned := false }, [], false)) := by
  refine ⟨watchdog_run_unwarned_count, ?_, ?_⟩
  · intro w k st now h
    constructor
    · simp only [watchdog_iter, Bool.false_eq_true, if_false, if_pos h]
      split_ifs <;> simp
    · simp only [watchdog_iter, Bool.false_eq_true, if_false, if_pos h]
  · intro w k st now hw hk
    have hw' : ¬((w:ℚ) ≤ 0) := not_le.mpr (by exact_mod_cast hw)
    have hk' : ¬((k:ℚ) ≤ 0) := not_le.mpr (by exact_mod_cast hk)
    simp [watchdog_iter, sub_self, hw', hk']

/-- C3 witness: a concrete beat-free trace between the thresholds yields
exactly one warning. -/
theorem watchdog_escalation_c3_witness :
    (watchdog_run 2 5 { last_beat := 0, warned := false }
      [(1, false), (3, false), (4, false)]).count WDSignal.warnB =
    (if ∃ e ∈ [((1:ℚ), false), ((3:ℚ), false), ((4:ℚ), false)],
        ((2:ℤ) : ℚ) ≤ e.1 - 0 then 1 else 0) :=
  watchdog_escalation_c3.1 2 5 0 [(1, false), (3, false), (4, false)]
    (by decide) (by decide)

/-- Shared helper (C1 evaluation i): an obstacle candidate at (0,0) is
accepted and activated although an active target sits at (0,0). -/
theorem c1_obstacle_accepted_near_target :
    ((handle_obstacle_msg init_default_params
      { cur_force := { Fx := 0, Fy := 0, reset := false },
        cur_state := { x := 0, y := 0, vx := 0, vy := 0 },
        paused := false,
        obstacles := List.replicate 12
          { x := 0, y := 0, active := false, life_steps := 0 },
        targets := { x := 0, y := 0, active := true, life_steps := 50 } ::
          List.replicate 11 { x := 0, y := 0, active := false, life_steps := 0 },
        score := 0, targets_collected := 0, last_hit_step := -1,
        step_counter := 0, last_key := '?' }
      { count := 1, obs := [{ x := 0, y := 0, life_steps := 10 }] }).obstacles.getD
        0 { x := 0, y := 0, active := false, life_steps := 0 }).active = true
    ∧ ((handle_obstacle_msg init_default_params
      { cur_force := { Fx := 0, Fy := 0, reset := false },
        cur_state := { x := 0, y := 0, vx := 0, vy := 0 },
        paused := false,
        obstacles := List.replicate 12
          { x := 0, y := 0, active := false, life_steps := 0 },
        targets := { x := 0, y := 0, active := true, life_steps := 50 } ::
          List.replicate 11 { x := 0, y := 0, active := false, life_steps := 0 },
        score := 0, targets_collected := 0, last_hit_step := -1,
        step_counter := 0, last_key := '?' }
      { count := 1, obs := [{ x := 0, y := 0, life_steps := 10 }] }).obstacles.getD
        0 { x := 0, y := 0, active := false, life_steps := 0 }).life_steps = 10 := by
  constructor
  · decide
  · decide

/-- Shared helper (C1 evaluation ii): the claimed cross-kind rule flags that
obstacle candidate (distance 0 to an active target, clearance 7.5). -/
theorem c1_rule_flags_obstacle :
    too_close_to_any_pointlike 0 0
      (({ x := 0, y := 0, active := true, life_steps := 50 } ::
        List.replicate 11 { x := 0, y := 0, active := false, life_steps := 0 }
        : List Target).map Target.toPointLike)
      (init_default_params.world_half * (15/100)) = true := by decide

/-- Shared helper (C1 evaluation iii): a target candidate at (0,0) is
accepted although an active obstacle sits at (0,0). -/
theorem c1_target_accepted_near_obstacle :
    ((handle_target_msg init_default_params
      { cur_force := { Fx := 0, Fy := 0, reset := false },
        cur_state := { x := 0, y := 0, vx := 0, vy := 0 },
        paused := false,
        obstacles := { x := 0, y := 0, active := true, life_steps := 50 } ::
          List.replicate 11 { x := 0, y := 0, active := false, life_steps := 0 },
        targets := List.replicate 12
          { x := 0, y := 0, active := false, life_steps := 0 },
        score := 0, targets_collected := 0, last_hit_step := -1,
        step_counter := 0, last_key := '?' }
      { count := 1, tgt := [{ x := 0, y := 0, life_steps := 10 }] }).targets.getD
        0 { x := 0, y := 0, active := false, life_steps := 0 }).active = true := by
  decide

/-- Shared helper (C1 evaluation iv): the claimed cross-kind rule flags that
target candidate. -/
theorem c1_rule_flags_target :
    too_close_to_any_pointlike 0 0
      (({ x := 0, y := 0, active := true, life_steps := 50 } ::
        List.replicate 11 { x := 0, y := 0, active := false, life_steps := 0 }
        : List Obstacle).map Obstacle.toPointLike)
      (init_default_params.world_half * (15/100)) = true := by decide

/-- Shared helper (C1 evaluation v): an obstacle candidate at (49,49) —
inside the wall margin that rejects targets — is accepted: no wall check is
applied to obstacle candidates. -/
theorem c1_obstacle_accepted_near_wall :
    ((handle_obstacle_msg init_default_params
      { cur_force := { Fx := 0, Fy := 0, reset := false },
        cur_state := { x := 0, y := 0, vx := 0, vy := 0 },
        paused := false,
        obstacles := List.replicate 12
          { x := 0, y := 0, active := false, life_steps := 0 },
        targets := List.replicate 12
          { x := 0, y := 0, active := false, life_steps := 0 },
        score := 0, targets_collected := 0, last_hit_step := -1,
        step_counter := 0, last_key := '?' }
      { count := 1, obs := [{ x := 49, y := 49, life_steps := 10 }] }).obstacles.getD
        0 { x := 0, y := 0, active := false, life_steps := 0 }).active = true := by
  decide

/-- Shared helper (C1 evaluation vi): the wall-margin rule that targets are
subjected to flags the spot (49,49). -/
theorem c1_wall_rule_flags_spot :
    target_too_close_to_wall 49 49 init_default_params
      (init_default_params.world_half * (20/100)) = true := by decide

/-- C1 (code evaluated at the failing input): the claim — and the source's
own comments and log strings at server.c lines 578-586 and 650-658 — say an
obstacle candidate is rejected when too close to an active *target* and a
target candidate when too close to an active *obstacle*, and that candidates
too close to a wall margin are rejected.  The code instead passes the
candidate's *own* array (`g_obstacles` resp. `g_targets`) to
`too_close_to_any_pointlike`, and applies no wall check at all to obstacle
candidates.  Concretely: (i) an obstacle candidate at (0,0) is accepted and
activated (with its assigned lifetime) although an active target sits at
(0,0), which the claimed cross-kind rule flags (distance 0 < clearance 7.5);
(ii) a target candidate at (0,0) is accepted although an active obstacle
sits at (0,0), which the claimed rule flags; (iii) an obstacle candidate at
(49,49) is accepted with no wall check although it lies inside the wall
margin that rejects a target at the same spot. -/
theorem batch_validation_c1_code_bug :
    (((handle_obstacle_msg init_default_params
      { cur_force := { Fx := 0, Fy := 0, reset := false },
        cur_state := { x := 0, y := 0, vx := 0, vy := 0 },
        paused := false,
        obstacles := List.replicate 12
          { x := 0, y := 0, active := false, life_steps := 0 },
        targets := { x := 0, y := 0, active := true, life_steps := 50 } ::
          List.replicate 11 { x := 0, y := 0, active := false, life_steps := 0 },
        score := 0, targets_collected := 0, last_hit_step := -1,
        step_counter := 0, last_key := '?' }
      { count := 1, obs := [{ x := 0, y := 0, life_steps := 10 }] }).obstacles.getD
        0 { x := 0, y := 0, active := false, life_steps := 0 }).active = true
    ∧ ((handle_obstacle_msg init_default_params
      { cur_force := { Fx := 0, Fy := 0, reset := false },
        cur_state := { x := 0, y := 0, vx := 0, vy := 0 },
        paused := false,
        obstacles := List.replicate 12
          { x := 0, y := 0, active := false, life_steps := 0 },
        targets := { x := 0, y := 0, active := true, life_steps := 50 } ::
          List.replicate 11 { x := 0, y := 0, active := false, life_steps := 0 },
        score := 0, targets_collected := 0, last_hit_step := -1,
        step_counter := 0, last_key := '?' }
      { count := 1, obs := [{ x := 0, y := 0, life_steps := 10 }] }).obstacles.getD
        0 { x := 0, y := 0, active := false, life_steps := 0 }).life_steps = 10)
    ∧ too_close_to_any_pointlike 0 0
        (({ x := 0, y := 0, active := true, life_steps := 50 } ::
          List.replicate 11 { x := 0, y := 0, active := false, life_steps := 0 }
          : List Target).map Target.toPointLike)
        (init_default_params.world_half * (15/100)) = true
    ∧ ((handle_target_msg init_default_params
      { cur_force := { Fx := 0, Fy := 0, reset := false },
        cur_state := { x := 0, y := 0, vx := 0, vy := 0 },
        paused := false,
        obstacles := { x := 0, y := 0, active := true, life_steps := 50 } ::
          List.replicate 11 { x := 0, y := 0, active := false, life_steps := 0 },
        targets := List.replicate 12
          { x := 0, y := 0, active := false, life_steps := 0 },
        score := 0, targets_collected := 0, last_hit_step := -1,
        step_counter := 0, last_key := '?' }
      { count := 1, tgt := [{ x := 0, y := 0, life_steps := 10 }] }).targets.getD
        0 { x := 0, y := 0, active := false, life_steps := 0 }).active = true
    ∧ too_close_to_any_pointlike 0 0
        (({ x := 0, y := 0, active := true, life_steps := 50 } ::
          List.replicate 11 { x := 0, y := 0, active := false, life_steps := 0 }
          : List Obstacle).map Obstacle.toPointLike)
        (init_default_params.world_half * (15/100)) = true
    ∧ ((handle_obstacle_msg init_default_params
      { cur_force := { Fx := 0, Fy := 0, reset := false },
        cur_state := { x := 0, y := 0, vx := 0, vy := 0 },
        paused := false,
        obstacles := List.replicate 12
          { x := 0, y := 0, active := false, life_steps := 0 },
        targets := List.replicate 12
          { x := 0, y := 0, active := false, life_steps := 0 },
        score := 0, targets_collected := 0, last_hit_step := -1,
        step_counter := 0, last_key := '?' }
      { count := 1, obs := [{ x := 49, y := 49, life_steps := 10 }] }).obstacles.getD
        0 { x := 0, y := 0, active := false, life_steps := 0 }).active = true
    ∧ target_too_close_to_wall 49 49 init_default_params
      (init_default_params.world_half * (20/100)) = true :=
  ⟨c1_obstacle_accepted_near_target, c1_rule_flags_obstacle,
   c1_target_accepted_near_obstacle, c1_rule_flags_target,
   c1_obstacle_accepted_near_wall, c1_wall_rule_flags_spot⟩
